import Mathlib

/-!
Shallow embedding of the contact-management core (apps `Contactos`):
the data model of `Contactos/models.py`, the aggregate create/update
serializer of `Contactos/serializers.py`, and the view-level operations
of `Contactos/views.py` (detail lookup/update/delete, search, grouping
by relationship type, statistics, favorite toggle).

Database rows are Lean structures; a `DB` value is the persistent store
(lists of rows).  The Django ORM queryset combinators used by the code
(`filter`, `Q`-disjunctions with joins on child tables, `distinct`,
`get`, `delete`-then-`create`) are embedded as list operations.
-/

namespace Contactos

/-- Row of `TipoRelacion` (relationship-type catalog). -/
structure TipoRelacion where
  id : Nat
  nombre : String
  descripcion : Option String
  color : String
  activo : Bool
deriving DecidableEq, Repr

/-- Row of `Contacto`.  `usuario` is the owning user's id
(the `usuario` foreign key); `tipo_relacion` is the type's id. -/
structure Contacto where
  id : Nat
  usuario : Nat
  nombre : String
  apellido_pat : String
  apellido_mat : String
  tipo_relacion : Nat
  empresa : String
  cargo : String
  fecha_nacimiento : Option Nat
  notas : String
  favorito : Bool
  activo : Bool
deriving DecidableEq, Repr

/-- Row of `TelefonoContacto`.  `contacto` is the owning contact's id,
`tipo` the phone-type id. -/
structure Telefono where
  contacto : Nat
  tipo : Nat
  numero : String
  principal : Bool
  activo : Bool
deriving DecidableEq, Repr

/-- Row of `EmailContacto`. -/
structure Email where
  contacto : Nat
  tipo : Nat
  email : String
  principal : Bool
  activo : Bool
deriving DecidableEq, Repr

/-- Row of `DireccionContacto`. -/
structure Direccion where
  contacto : Nat
  tipo : Nat
  calle : String
  ciudad : String
  estado_provincia : String
  codigo_postal : String
  pais : String
  principal : Bool
  activo : Bool
deriving DecidableEq, Repr

/-- The persistent store: one list per table used by the contact core. -/
structure DB where
  contactos : List Contacto
  telefonos : List Telefono
  emails : List Email
  direcciones : List Direccion
  tipos_relacion : List TipoRelacion
deriving DecidableEq, Repr

/-- Contact ids are unique (`id` is the primary key). -/
abbrev nodupIds (l : List Contacto) : Prop := (l.map (fun c => c.id)).Nodup

/-! ## Phone-number validation (`TelefonoContacto.numero`)

The model field carries `RegexValidator(regex=r'^\+?1?\d{9,15}$')`. -/

/-- All characters are decimal digits. -/
def allDigits (cs : List Char) : Bool := cs.all (fun c => c.isDigit)

/-- Consume the optional leading `'+'` (the `\+?` of the pattern: a
`'+'` can only be matched there, every later character of the pattern
is `1` or a digit). -/
def stripPlus : List Char → List Char
  | [] => []
  | c :: rest => if c = '+' then rest else c :: rest

/-- The `1?\d{9,15}$` tail of the pattern: either a leading `'1'`
followed by 9–15 digits, or 9–15 digits outright (`'1'` is itself a
digit, so both alternatives of the optional `1?` stay possible). -/
def opt1Digits (cs : List Char) : Bool :=
  (match cs with
    | c :: rest =>
        c == '1' && allDigits rest &&
        decide (9 ≤ rest.length) && decide (rest.length ≤ 15)
    | [] => false)
  || (allDigits cs && decide (9 ≤ cs.length) && decide (cs.length ≤ 15))

/-- Embedding of the regular expression `^\+?1?\d{9,15}$` from
`TelefonoContacto.numero`'s `RegexValidator`. -/
def matchesNumeroRegex (s : String) : Bool :=
  opt1Digits (stripPlus s.data)

/-- The validation language as the spec words it: an optional leading
`'+'` followed by 9 to 15 digits in total.  Written from the spec
sentence, to be compared with `matchesNumeroRegex`. -/
def claimedNumeroSpec (s : String) : Bool :=
  let cs := stripPlus s.data
  allDigits cs && decide (9 ≤ cs.length) && decide (cs.length ≤ 15)

/-! ## Case-insensitive substring matching (`icontains`) -/

/-- `startsWithList n h`: `n` is a prefix of `h` (character lists). -/
def startsWithList : List Char → List Char → Bool
  | [], _ => true
  | _ :: _, [] => false
  | a :: as, b :: bs => a == b && startsWithList as bs

/-- `containsList n h`: `n` occurs as a contiguous run inside `h`. -/
def containsList (n : List Char) : List Char → Bool
  | [] => startsWithList n []
  | b :: bs => startsWithList n (b :: bs) || containsList n bs

/-- Python's `str.lower()` (character-wise lowercasing). -/
def toLowerStr (s : String) : String := ⟨s.data.map Char.toLower⟩

/-- Django's `field__icontains=q`: `q` is a case-insensitive substring
of the field value `s`. -/
def icontains (s q : String) : Bool :=
  containsList (q.data.map Char.toLower) (s.data.map Char.toLower)

/-! ## Querysets scoped to the owner -/

/-- `Contacto.objects.filter(usuario=user)` — the queryset every contact
view starts from (`get_queryset` of the list, detail, todos, favoritos
and buscar views, and the statistics view). -/
def ownContactos (db : DB) (u : Nat) : List Contacto :=
  db.contactos.filter (fun c => c.usuario == u)

/-- `instance.telefonos.all()` — phones of one contact. -/
def telefonosDe (db : DB) (cid : Nat) : List Telefono :=
  db.telefonos.filter (fun t => t.contacto == cid)

/-- `instance.emails.all()` — emails of one contact. -/
def emailsDe (db : DB) (cid : Nat) : List Email :=
  db.emails.filter (fun e => e.contacto == cid)

/-- `instance.direcciones.all()` — addresses of one contact. -/
def direccionesDe (db : DB) (cid : Nat) : List Direccion :=
  db.direcciones.filter (fun d => d.contacto == cid)

/-- A store in which only `u`'s contacts remain; used to state that the
read operations depend only on the requester's own contacts. -/
def restrictToUser (db : DB) (u : Nat) : DB :=
  { db with contactos := ownContactos db u }

/-! ## The free-text `q` filter of `ContactoBuscarView.get_queryset`

The view applies one `Q`-disjunction over six scalar columns and the
joined `telefonos__numero` / `emails__email` columns, then `.distinct()`.
The SQL this produces left-joins the two child tables (one row per
phone/email combination, one padding row when a side is empty), keeps
rows where the disjunction holds, and deduplicates the selected contact
columns.  `leftJoinRows`/`rowMatchesQ`/`dedupByIdAux` embed exactly
that. -/

/-- The disjunction of the six scalar `icontains` branches of the `Q`
filter. -/
def scalarMatchesQ (q : String) (c : Contacto) : Bool :=
  icontains c.nombre q || icontains c.apellido_pat q ||
  icontains c.apellido_mat q || icontains c.empresa q ||
  icontains c.cargo q || icontains c.notas q

/-- Rows of the contact left-joined with its phones and emails:
the cartesian product, padded with `none` on an empty side. -/
def leftJoinRows (db : DB) (c : Contacto) : List (Option Telefono × Option Email) :=
  let ts := telefonosDe db c.id
  let es := emailsDe db c.id
  let ts' := if ts.isEmpty then [none] else ts.map some
  let es' := if es.isEmpty then [none] else es.map some
  ts'.flatMap (fun t => es'.map (fun e => (t, e)))

/-- The `WHERE` clause of the `q` filter evaluated on one joined row. -/
def rowMatchesQ (q : String) (c : Contacto) (p : Option Telefono × Option Email) : Bool :=
  scalarMatchesQ q c ||
  (match p.1 with
    | some t => icontains t.numero q
    | none => false) ||
  (match p.2 with
    | some e => icontains e.email q
    | none => false)

/-- The joined, filtered rows projected back to their contact (still
with duplicates, as before `.distinct()`). -/
def qRows (db : DB) (q : String) (qs : List Contacto) : List Contacto :=
  qs.flatMap (fun c =>
    (leftJoinRows db c).filterMap (fun p =>
      if rowMatchesQ q c p then some c else none))

/-- `.distinct()` on contact rows: keep the first row of each contact
id, drop the rest. -/
def dedupByIdAux (seen : List Nat) : List Contacto → List Contacto
  | [] => []
  | c :: cs =>
      if seen.contains c.id then dedupByIdAux seen cs
      else c :: dedupByIdAux (c.id :: seen) cs

/-- `.distinct()` starting from no ids seen. -/
def dedupById (l : List Contacto) : List Contacto := dedupByIdAux [] l

/-- Denotation of the whole `Q`-disjunction for one contact: the term
matches a scalar field, or some phone number, or some email address. -/
def matchesQ (db : DB) (q : String) (c : Contacto) : Bool :=
  scalarMatchesQ q c ||
  (telefonosDe db c.id).any (fun t => icontains t.numero q) ||
  (emailsDe db c.id).any (fun e => icontains e.email q)

/-- The `if q:` step of `ContactoBuscarView.get_queryset`: Python's
truthiness test skips it for an absent parameter and for the empty
string; otherwise the `Q`-disjunction filter plus `.distinct()` is
applied. -/
def applyQ (db : DB) (q : Option String) (qs : List Contacto) : List Contacto :=
  match q with
  | some s => if s.isEmpty then qs else dedupById (qRows db s qs)
  | none => qs

/-- The `if tipo_relacion:` step: `filter(tipo_relacion_id=tipo)`
(the id arrives as a query-parameter string). -/
def applyTipo (tipo : Option String) (qs : List Contacto) : List Contacto :=
  match tipo with
  | some s => if s.isEmpty then qs
              else qs.filter (fun c => s.toNat? == some c.tipo_relacion)
  | none => qs

/-- The `if favorito is not None:` step:
`filter(favorito=favorito.lower() == 'true')` — applied whenever the
parameter is present, even as the empty string; every value other than
a case-insensitive `"true"` filters for `favorito=False`. -/
def applyFavorito (favorito : Option String) (qs : List Contacto) : List Contacto :=
  match favorito with
  | some s => qs.filter (fun c => c.favorito == (toLowerStr s == "true"))
  | none => qs

/-- The `if empresa:` step: `filter(empresa__icontains=empresa)`. -/
def applyEmpresa (empresa : Option String) (qs : List Contacto) : List Contacto :=
  match empresa with
  | some s => if s.isEmpty then qs
              else qs.filter (fun c => icontains c.empresa s)
  | none => qs

/-- The `if activo is not None:` step:
`filter(activo=activo.lower() == 'true')`. -/
def applyActivo (activo : Option String) (qs : List Contacto) : List Contacto :=
  match activo with
  | some s => qs.filter (fun c => c.activo == (toLowerStr s == "true"))
  | none => qs

/-- `ContactoBuscarView.get_queryset`: the owner-scoped queryset with
the five optional query parameters applied in source order.  A `none`
parameter is an absent query parameter. -/
def buscar (db : DB) (u : Nat)
    (q tipo favorito empresa activo : Option String) : List Contacto :=
  applyActivo activo (applyEmpresa empresa (applyFavorito favorito
    (applyTipo tipo (applyQ db q (ownContactos db u)))))

/-! ## Aggregate create/update serializer
(`ContactoCreateUpdateSerializer`)

`validated_data` holds only the declared writable fields — the `Meta`
field list has no `usuario` entry.  An `Option` field set to `none` is
a field absent from the request (partial update); the nested child
lists are the write-side of the three child serializers. -/

/-- Write-side of `TelefonoContactoSerializer` (`tipo_id`, `numero`,
`principal`, `activo`). -/
structure TelefonoInput where
  tipo_id : Nat
  numero : String
  principal : Bool
  activo : Bool
deriving DecidableEq, Repr

/-- Write-side of `EmailContactoSerializer`. -/
structure EmailInput where
  tipo_id : Nat
  email : String
  principal : Bool
  activo : Bool
deriving DecidableEq, Repr

/-- Write-side of `DireccionContactoSerializer`. -/
structure DireccionInput where
  tipo_id : Nat
  calle : String
  ciudad : String
  estado_provincia : String
  codigo_postal : String
  pais : String
  principal : Bool
  activo : Bool
deriving DecidableEq, Repr

/-- `validated_data` of `ContactoCreateUpdateSerializer`: exactly the
fields of its `Meta.fields` list, each optional (absent on a partial
update).  There is no owner field. -/
structure ContactoInput where
  nombre : Option String
  apellido_pat : Option String
  apellido_mat : Option String
  tipo_relacion : Option Nat
  empresa : Option String
  cargo : Option String
  fecha_nacimiento : Option (Option Nat)
  notas : Option String
  favorito : Option Bool
  activo : Option Bool
  telefonos : Option (List TelefonoInput)
  emails : Option (List EmailInput)
  direcciones : Option (List DireccionInput)
deriving DecidableEq, Repr

/-- The `ContactoInput` with every field absent (an empty PATCH body). -/
def emptyInput : ContactoInput :=
  { nombre := none, apellido_pat := none, apellido_mat := none,
    tipo_relacion := none, empresa := none, cargo := none,
    fecha_nacimiento := none, notas := none, favorito := none,
    activo := none, telefonos := none, emails := none, direcciones := none }

/-- The scalar-field loop `for attr, value in validated_data.items():
setattr(instance, attr, value)` (children already popped). -/
def applyInput (c : Contacto) (vd : ContactoInput) : Contacto :=
  { c with
    nombre := vd.nombre.getD c.nombre
    apellido_pat := vd.apellido_pat.getD c.apellido_pat
    apellido_mat := vd.apellido_mat.getD c.apellido_mat
    tipo_relacion := vd.tipo_relacion.getD c.tipo_relacion
    empresa := vd.empresa.getD c.empresa
    cargo := vd.cargo.getD c.cargo
    fecha_nacimiento := vd.fecha_nacimiento.getD c.fecha_nacimiento
    notas := vd.notas.getD c.notas
    favorito := vd.favorito.getD c.favorito
    activo := vd.activo.getD c.activo }

/-- `TelefonoContacto.objects.create(contacto=inst, **telefono_data)`. -/
def mkTelefono (cid : Nat) (td : TelefonoInput) : Telefono :=
  { contacto := cid, tipo := td.tipo_id, numero := td.numero,
    principal := td.principal, activo := td.activo }

/-- `EmailContacto.objects.create(contacto=inst, **email_data)`. -/
def mkEmail (cid : Nat) (ed : EmailInput) : Email :=
  { contacto := cid, tipo := ed.tipo_id, email := ed.email,
    principal := ed.principal, activo := ed.activo }

/-- `DireccionContacto.objects.create(contacto=inst, **direccion_data)`. -/
def mkDireccion (cid : Nat) (dd : DireccionInput) : Direccion :=
  { contacto := cid, tipo := dd.tipo_id, calle := dd.calle,
    ciudad := dd.ciudad, estado_provincia := dd.estado_provincia,
    codigo_postal := dd.codigo_postal, pais := dd.pais,
    principal := dd.principal, activo := dd.activo }

/-- `ContactoCreateUpdateSerializer.update`: pop the three child lists
(absent defaults to `[]`), write the scalar fields and save, then for
each kind — only when the popped list is non-empty (`if telefonos_data:`)
— delete all existing children of the instance and create the new
ones. -/
def serializerUpdate (db : DB) (inst : Contacto) (vd : ContactoInput) : DB :=
  let telefonos_data := vd.telefonos.getD []
  let emails_data := vd.emails.getD []
  let direcciones_data := vd.direcciones.getD []
  let inst' := applyInput inst vd
  { contactos := db.contactos.map (fun x => if x.id == inst.id then inst' else x)
    telefonos :=
      if telefonos_data.isEmpty then db.telefonos
      else db.telefonos.filter (fun t => !(t.contacto == inst.id)) ++
           telefonos_data.map (mkTelefono inst.id)
    emails :=
      if emails_data.isEmpty then db.emails
      else db.emails.filter (fun e => !(e.contacto == inst.id)) ++
           emails_data.map (mkEmail inst.id)
    direcciones :=
      if direcciones_data.isEmpty then db.direcciones
      else db.direcciones.filter (fun d => !(d.contacto == inst.id)) ++
           direcciones_data.map (mkDireccion inst.id)
    tipos_relacion := db.tipos_relacion }

/-! ## Detail view (`ContactoDetailView`) -/

/-- The two error responses the embedded views can produce:
`notFound` is DRF's `Http404` (HTTP 404), `denied` is
`PermissionDenied` (HTTP 403). -/
inductive ApiError where
  | notFound
  | denied
deriving DecidableEq, Repr

/-- DRF's `get_object` for `ContactoDetailView`: look the pk up inside
`get_queryset()` — which is already `filter(usuario=request.user)` —
and raise `Http404` when it is not there. -/
def getObject (db : DB) (u : Nat) (pk : Nat) : Except ApiError Contacto :=
  match (ownContactos db u).find? (fun c => c.id == pk) with
  | none => Except.error ApiError.notFound
  | some c => Except.ok c

/-- PUT/PATCH on `ContactoDetailView`: `get_object`, then
`perform_update`'s ownership re-check (`PermissionDenied` when the
instance's owner differs from the requester), then the serializer
update. -/
def updateView (db : DB) (u : Nat) (pk : Nat) (vd : ContactoInput) :
    Except ApiError DB :=
  match getObject db u pk with
  | Except.error e => Except.error e
  | Except.ok inst =>
      if inst.usuario ≠ u then Except.error ApiError.denied
      else Except.ok (serializerUpdate db inst vd)

/-- DELETE on `ContactoDetailView`: `get_object`, `perform_destroy`'s
ownership re-check, then `instance.delete()` (children cascade). -/
def destroyView (db : DB) (u : Nat) (pk : Nat) : Except ApiError DB :=
  match getObject db u pk with
  | Except.error e => Except.error e
  | Except.ok inst =>
      if inst.usuario ≠ u then Except.error ApiError.denied
      else Except.ok
        { contactos := db.contactos.filter (fun c => !(c.id == inst.id))
          telefonos := db.telefonos.filter (fun t => !(t.contacto == inst.id))
          emails := db.emails.filter (fun e => !(e.contacto == inst.id))
          direcciones := db.direcciones.filter (fun d => !(d.contacto == inst.id))
          tipos_relacion := db.tipos_relacion }

/-! ## Grouping by relationship type (`ContactoPorTipoView.get`) -/

/-- One entry of the response dict: key `tipo.nombre`, the `tipo_info`
fields, `count`, and the serialized contact list. -/
structure PorTipoEntry where
  nombre : String
  tipo_id : Nat
  color : String
  descripcion : Option String
  count : Nat
  contactos : List Contacto
deriving DecidableEq, Repr

/-- `ContactoPorTipoView.get`: iterate over
`TipoRelacion.objects.filter(activo=True)` and emit, for every such
type, the owner's contacts of that type with their count. -/
def porTipoGet (db : DB) (u : Nat) : List PorTipoEntry :=
  (db.tipos_relacion.filter (fun t => t.activo)).map (fun tipo =>
    let contactos := db.contactos.filter
      (fun c => c.usuario == u && c.tipo_relacion == tipo.id)
    { nombre := tipo.nombre, tipo_id := tipo.id, color := tipo.color,
      descripcion := tipo.descripcion, count := contactos.length,
      contactos := contactos })

/-! ## Statistics (`ContactoEstadisticasView.get`) -/

/-- The response of the statistics endpoint.  `por_tipo_relacion` lists
`(tipo.nombre, count, tipo.color)` entries in catalog order. -/
structure Estadisticas where
  total_contactos : Nat
  contactos_favoritos : Nat
  contactos_activos : Nat
  contactos_inactivos : Nat
  por_tipo_relacion : List (String × Nat × String)
  con_telefono : Nat
  con_email : Nat
  con_direccion : Nat
deriving DecidableEq, Repr

/-- `ContactoEstadisticasView.get`: counts over the owner-scoped
queryset; the per-type breakdown iterates `TipoRelacion.objects.all()`
(active or not) and keeps only types with a positive count;
`con_telefono`/`con_email`/`con_direccion` count contacts having at
least one child of the kind (`filter(child__isnull=False).distinct()`). -/
def estadisticasGet (db : DB) (u : Nat) : Estadisticas :=
  let queryset := ownContactos db u
  { total_contactos := queryset.length
    contactos_favoritos := (queryset.filter (fun c => c.favorito)).length
    contactos_activos := (queryset.filter (fun c => c.activo)).length
    contactos_inactivos := (queryset.filter (fun c => !c.activo)).length
    por_tipo_relacion := db.tipos_relacion.filterMap (fun tipo =>
      let count := (queryset.filter (fun c => c.tipo_relacion == tipo.id)).length
      if count > 0 then some (tipo.nombre, count, tipo.color) else none)
    con_telefono := (queryset.filter
      (fun c => db.telefonos.any (fun t => t.contacto == c.id))).length
    con_email := (queryset.filter
      (fun c => db.emails.any (fun e => e.contacto == c.id))).length
    con_direccion := (queryset.filter
      (fun c => db.direcciones.any (fun d => d.contacto == c.id))).length }

/-! ## Favorite toggle (`ContactoToggleFavoritoView.post`) -/

/-- `POST /contactos/{pk}/toggle-favorito/`:
`Contacto.objects.get(pk=pk, usuario=request.user)`; on
`DoesNotExist` answer 404 leaving the store untouched; otherwise flip
`favorito` on the instance and `save()` it (write the instance back
over the row with its pk).  Returns the new store and, on success, the
contact as returned in the response. -/
def toggleFavorito (db : DB) (u : Nat) (pk : Nat) : DB × Option Contacto :=
  match db.contactos.find? (fun c => c.id == pk && c.usuario == u) with
  | none => (db, none)
  | some c =>
      let c' := { c with favorito := !c.favorito }
      ({ db with contactos :=
          db.contactos.map (fun x => if x.id == c.id then c' else x) },
       some c')

/-! ## A small concrete store, used to instantiate the theorems -/

/-- An active relationship type with one contact (Ana's). -/
def tipoAmigos : TipoRelacion :=
  { id := 1, nombre := "Amigos", descripcion := none,
    color := "#111111", activo := true }

/-- An inactive relationship type that still has a contact (Beto's). -/
def tipoTrabajo : TipoRelacion :=
  { id := 2, nombre := "Trabajo", descripcion := none,
    color := "#222222", activo := false }

/-- An active relationship type with no contacts at all. -/
def tipoEscuela : TipoRelacion :=
  { id := 3, nombre := "Escuela", descripcion := none,
    color := "#333333", activo := true }

/-- User 1's contact. -/
def ana : Contacto :=
  { id := 1, usuario := 1, nombre := "Ana", apellido_pat := "Ruiz",
    apellido_mat := "", tipo_relacion := 1, empresa := "", cargo := "",
    fecha_nacimiento := none, notas := "", favorito := false, activo := true }

/-- User 2's contact. -/
def beto : Contacto :=
  { id := 2, usuario := 2, nombre := "Beto", apellido_pat := "",
    apellido_mat := "", tipo_relacion := 2, empresa := "", cargo := "",
    fecha_nacimiento := none, notas := "", favorito := true, activo := true }

/-- Ana's first phone; contains "555". -/
def telAna1 : Telefono :=
  { contacto := 1, tipo := 1, numero := "5551234567",
    principal := true, activo := true }

/-- Ana's second phone; also contains "555". -/
def telAna2 : Telefono :=
  { contacto := 1, tipo := 1, numero := "5559876543",
    principal := false, activo := true }

/-- The sample store. -/
def dbSample : DB :=
  { contactos := [ana, beto], telefonos := [telAna1, telAna2],
    emails := [], direcciones := [],
    tipos_relacion := [tipoAmigos, tipoTrabajo, tipoEscuela] }

/-! ## General list lemmas -/

/-- Re-filtering by a stronger predicate forgets the weaker one. -/
theorem filter_absorb {α : Type} (p q : α → Bool) (l : List α)
    (h : ∀ a, q a = true → p a = true) :
    (l.filter p).filter q = l.filter q := by
  induction l with
  | nil => rfl
  | cons a t ih =>
      cases hq : q a with
      | true => simp [List.filter_cons, h a hq, hq, ih]
      | false => cases hp : p a <;> simp [List.filter_cons, hp, hq, ih]

/-- `find?` only looks at the predicate's values on the list. -/
theorem find?_congr_pred {α : Type} (p q : α → Bool) (l : List α)
    (h : ∀ a ∈ l, p a = q a) : l.find? p = l.find? q := by
  induction l with
  | nil => rfl
  | cons a t ih =>
      have ha := h a (by simp)
      cases hq : q a with
      | true => simp [List.find?_cons, ha, hq]
      | false =>
          simp only [List.find?_cons, ha, hq]
          exact ih (fun x hx => h x (by simp [hx]))

/-- Membership in `ownContactos`. -/
theorem mem_ownContactos {db : DB} {u : Nat} {c : Contacto} :
    c ∈ ownContactos db u ↔ c ∈ db.contactos ∧ c.usuario = u := by
  simp [ownContactos, List.mem_filter]

/-- Restricting the store to the requester's contacts does not change
the owner-scoped queryset. -/
theorem ownContactos_restrict (db : DB) (u : Nat) :
    ownContactos (restrictToUser db u) u = ownContactos db u := by
  show (ownContactos db u).filter _ = _
  exact filter_absorb _ _ _ (fun a ha => ha)

/-! ## C4: phone-number validation -/

/-- The `1?\d{9,15}` tail accepts exactly an optional `'1'` followed by
9–15 digits. -/
theorem opt1Digits_iff (cs : List Char) :
    opt1Digits cs = true ↔
    ∃ (o : Bool) (d : List Char), cs = (cond o ['1'] []) ++ d ∧
      allDigits d = true ∧ 9 ≤ d.length ∧ d.length ≤ 15 := by
  constructor
  · intro h
    unfold opt1Digits at h
    rw [Bool.or_eq_true] at h
    rcases h with h | h
    · match cs, h with
      | c :: rest, h =>
        simp only [Bool.and_eq_true, beq_iff_eq, decide_eq_true_eq] at h
        obtain ⟨⟨⟨hc, hd⟩, h9⟩, h15⟩ := h
        exact ⟨true, rest, by simp [hc], hd, h9, h15⟩
    · simp only [Bool.and_eq_true, decide_eq_true_eq] at h
      exact ⟨false, cs, by simp, h.1.1, h.1.2, h.2⟩
  · rintro ⟨o, d, hcs, hd, h9, h15⟩
    subst hcs
    unfold opt1Digits
    rw [Bool.or_eq_true]
    cases o
    · right
      simp [hd, h9, h15]
    · left
      simp [hd, h9, h15]

/-- A list of 9 or more digits is nonempty and starts with a digit,
hence not with `'+'`. -/
theorem stripPlus_digits {d : List Char} (hd : allDigits d = true)
    (h9 : 9 ≤ d.length) : stripPlus d = d := by
  match d with
  | [] => simp at h9
  | c :: t =>
      have hcdig : c.isDigit = true := by
        simp only [allDigits, List.all_cons, Bool.and_eq_true] at hd
        exact hd.1
      have hne : ¬ c = '+' := by
        intro h0
        subst h0
        exact absurd hcdig (by decide)
      simp [stripPlus, hne]

/-- C4 (amended): the validator's language is an optional leading `'+'`,
then an optional `'1'`, then 9 to 15 further digits — the `1?` in
`^\+?1?\d{9,15}$` admits strings of 16 digits beginning with `'1'`,
so the spec's "9 to 15 digits in total" bound does not hold. -/
theorem c4_numero_validation_characterization (s : String) :
    matchesNumeroRegex s = true ↔
    ∃ (p o : Bool) (d : List Char),
      s.data = (cond p ['+'] []) ++ (cond o ['1'] []) ++ d ∧
      allDigits d = true ∧ 9 ≤ d.length ∧ d.length ≤ 15 := by
  rw [matchesNumeroRegex]
  constructor
  · intro h
    cases hcs : s.data with
    | nil =>
      rw [hcs, show stripPlus [] = [] from rfl] at h
      obtain ⟨o, d, h1, h2, h3, h4⟩ := (opt1Digits_iff _).mp h
      exact ⟨false, o, d, by simpa using h1, h2, h3, h4⟩
    | cons c t =>
      rw [hcs] at h
      by_cases hc : c = '+'
      · subst hc
        rw [show stripPlus ('+' :: t) = t by simp [stripPlus]] at h
        obtain ⟨o, d, h1, h2, h3, h4⟩ := (opt1Digits_iff _).mp h
        exact ⟨true, o, d, by simp [hcs, h1], h2, h3, h4⟩
      · rw [show stripPlus (c :: t) = c :: t by simp [stripPlus, hc]] at h
        obtain ⟨o, d, h1, h2, h3, h4⟩ := (opt1Digits_iff _).mp h
        exact ⟨false, o, d, by simp [hcs, h1], h2, h3, h4⟩
  · rintro ⟨p, o, d, hs, hd, h9, h15⟩
    rw [hs]
    cases p
    · show opt1Digits (stripPlus ([] ++ cond o ['1'] [] ++ d)) = true
      cases o
      · show opt1Digits (stripPlus ([] ++ [] ++ d)) = true
        rw [List.nil_append, List.nil_append, stripPlus_digits hd h9]
        exact (opt1Digits_iff _).mpr ⟨false, d, by simp, hd, h9, h15⟩
      · show opt1Digits (stripPlus ([] ++ ['1'] ++ d)) = true
        rw [show ([] ++ ['1'] ++ d : List Char) = '1' :: d by simp]
        rw [show stripPlus ('1' :: d) = '1' :: d by simp [stripPlus]]
        exact (opt1Digits_iff _).mpr ⟨true, d, by simp, hd, h9, h15⟩
    · show opt1Digits (stripPlus (['+'] ++ cond o ['1'] [] ++ d)) = true
      rw [show (['+'] ++ cond o ['1'] [] ++ d : List Char) =
            '+' :: (cond o ['1'] [] ++ d) by simp]
      rw [show stripPlus ('+' :: (cond o ['1'] [] ++ d)) =
            cond o ['1'] [] ++ d by simp [stripPlus]]
      exact (opt1Digits_iff _).mpr ⟨o, d, rfl, hd, h9, h15⟩

/-- C4 counterexample: the 16-digit string "1234567890123456" is
accepted by the validator (`1?` then 15 digits) but has more than 15
digits, so it is outside the language the claim describes. -/
theorem c4_counterexample :
    matchesNumeroRegex "1234567890123456" = true ∧
    claimedNumeroSpec "1234567890123456" = false ∧
    ("1234567890123456".data.length = 16 ∧
      allDigits "1234567890123456".data = true) := by
  refine ⟨by decide, by decide, by decide, by decide⟩

/-! ## C1: replace semantics of the aggregate update -/

/-- A phone row supplied to the update. -/
def telNuevoInput : TelefonoInput :=
  { tipo_id := 1, numero := "5550000000", principal := true, activo := true }

/-- An update request whose body carries exactly one phone. -/
def vdTelNuevo : ContactoInput := { emptyInput with telefonos := some [telNuevoInput] }

/-- An update request whose body carries `telefonos: []`. -/
def vdTelVacio : ContactoInput := { emptyInput with telefonos := some [] }

/-- C1 counterexample: updating Ana with an explicitly empty `telefonos`
array leaves her two existing phones in place — the code treats a
supplied empty list exactly like an omitted field, so "supplying an
empty phones array deletes all of the contact's existing phones" fails. -/
theorem c1_counterexample :
    vdTelVacio.telefonos = some [] ∧
    telefonosDe dbSample ana.id = [telAna1, telAna2] ∧
    (serializerUpdate dbSample ana vdTelVacio).telefonos = dbSample.telefonos ∧
    dbSample.telefonos = [telAna1, telAna2] := by
  exact ⟨rfl, rfl, rfl, rfl⟩

/-- C1 (amended): in the aggregate update, an omitted child list and a
supplied empty child list are not distinguished — both leave the
existing children of that kind untouched; only a supplied non-empty
list of a kind deletes all existing children of that kind and inserts
the new set.  This holds uniformly for phones, emails and addresses. -/
theorem c1_update_replace_semantics (db : DB) (inst : Contacto) (vd : ContactoInput) :
    ((vd.telefonos = none ∨ vd.telefonos = some []) →
        (serializerUpdate db inst vd).telefonos = db.telefonos) ∧
    (∀ ts, vd.telefonos = some ts → ts ≠ [] →
        (serializerUpdate db inst vd).telefonos =
          db.telefonos.filter (fun t => !(t.contacto == inst.id)) ++
            ts.map (mkTelefono inst.id)) ∧
    ((vd.emails = none ∨ vd.emails = some []) →
        (serializerUpdate db inst vd).emails = db.emails) ∧
    (∀ es, vd.emails = some es → es ≠ [] →
        (serializerUpdate db inst vd).emails =
          db.emails.filter (fun e => !(e.contacto == inst.id)) ++
            es.map (mkEmail inst.id)) ∧
    ((vd.direcciones = none ∨ vd.direcciones = some []) →
        (serializerUpdate db inst vd).direcciones = db.direcciones) ∧
    (∀ ds, vd.direcciones = some ds → ds ≠ [] →
        (serializerUpdate db inst vd).direcciones =
          db.direcciones.filter (fun d => !(d.contacto == inst.id)) ++
            ds.map (mkDireccion inst.id)) := by
  refine ⟨?_, ?_, ?_, ?_, ?_, ?_⟩
  · rintro (h | h) <;> simp [serializerUpdate, h]
  · intro ts hts hne
    simp [serializerUpdate, hts, List.isEmpty_eq_false.mpr hne]
  · rintro (h | h) <;> simp [serializerUpdate, h]
  · intro es hes hne
    simp [serializerUpdate, hes, List.isEmpty_eq_false.mpr hne]
  · rintro (h | h) <;> simp [serializerUpdate, h]
  · intro ds hds hne
    simp [serializerUpdate, hds, List.isEmpty_eq_false.mpr hne]

/-- C1 witness: the amended statement evaluated on the sample store —
an omitted list keeps Ana's phones, a supplied one-element list
replaces them. -/
theorem c1_witness :
    (serializerUpdate dbSample ana emptyInput).telefonos = dbSample.telefonos ∧
    (serializerUpdate dbSample ana vdTelNuevo).telefonos =
      dbSample.telefonos.filter (fun t => !(t.contacto == ana.id)) ++
        [telNuevoInput].map (mkTelefono ana.id) :=
  ⟨(c1_update_replace_semantics dbSample ana emptyInput).1 (Or.inl rfl),
   (c1_update_replace_semantics dbSample ana vdTelNuevo).2.1
     [telNuevoInput] rfl (by decide)⟩

/-! ## C2: foreign-owned contacts on update/delete -/

/-- A successful `get_object` returns a contact of the requesting user
with the requested pk. -/
theorem getObject_ok {db : DB} {u pk : Nat} {c : Contacto}
    (h : getObject db u pk = Except.ok c) :
    c ∈ db.contactos ∧ c.usuario = u ∧ c.id = pk := by
  unfold getObject at h
  cases hf : (ownContactos db u).find? (fun c => c.id == pk) with
  | none => rw [hf] at h; cases h
  | some c' =>
      rw [hf] at h
      cases h
      have hm := mem_ownContactos.mp (List.mem_of_find?_eq_some hf)
      have hp := List.find?_some hf
      exact ⟨hm.1, hm.2, by simpa using hp⟩

/-- `get_object` can only fail with 404. -/
theorem getObject_error {db : DB} {u pk : Nat} {e : ApiError}
    (h : getObject db u pk = Except.error e) : e = ApiError.notFound := by
  unfold getObject at h
  cases hf : (ownContactos db u).find? (fun c => c.id == pk) with
  | none => rw [hf] at h; cases h; rfl
  | some c' => rw [hf] at h; cases h

/-- When no contact of the requester carries the pk, `get_object`
answers 404 — also when the pk belongs to another user's contact. -/
theorem getObject_none {db : DB} {u pk : Nat}
    (h : ∀ c ∈ db.contactos, c.id = pk → c.usuario ≠ u) :
    getObject db u pk = Except.error ApiError.notFound := by
  unfold getObject
  have hf : (ownContactos db u).find? (fun c => c.id == pk) = none := by
    rw [List.find?_eq_none]
    intro x hx hpx
    have hm := mem_ownContactos.mp hx
    exact h x hm.1 (by simpa using hpx) hm.2
  rw [hf]

/-- C2 counterexample: contact 1 exists and is owned by user 1, yet
user 2's update and delete requests on it answer 404 (`NotFoundError`),
not 403 (`AuthorizationError`) — the detail view's queryset is already
owner-scoped, so the `PermissionDenied` branch is never reached. -/
theorem c2_counterexample :
    ana ∈ dbSample.contactos ∧ ana.id = 1 ∧ ana.usuario ≠ 2 ∧
    updateView dbSample 2 1 emptyInput = Except.error ApiError.notFound ∧
    destroyView dbSample 2 1 = Except.error ApiError.notFound := by
  exact ⟨by decide, rfl, by decide, rfl, rfl⟩

/-- C2 (amended): an update or delete on a contact that exists but is
owned by someone else fails with `NotFoundError` (404), exactly as if
the contact did not exist; `PermissionDenied` (403) is unreachable on
these endpoints. -/
theorem c2_foreign_update_delete_not_found (db : DB) (u pk : Nat) (vd : ContactoInput) :
    ((∀ c ∈ db.contactos, c.id = pk → c.usuario ≠ u) →
        updateView db u pk vd = Except.error ApiError.notFound ∧
        destroyView db u pk = Except.error ApiError.notFound) ∧
    updateView db u pk vd ≠ Except.error ApiError.denied ∧
    destroyView db u pk ≠ Except.error ApiError.denied := by
  refine ⟨fun h => ?_, ?_, ?_⟩
  · have hg := getObject_none h
    exact ⟨by simp [updateView, hg], by simp [destroyView, hg]⟩
  · cases hg : getObject db u pk with
    | error e =>
        have he := getObject_error hg
        subst he
        simp [updateView, hg]
    | ok inst =>
        have hu := (getObject_ok hg).2.1
        simp [updateView, hg, hu]
  · cases hg : getObject db u pk with
    | error e =>
        have he := getObject_error hg
        subst he
        simp [destroyView, hg]
    | ok inst =>
        have hu := (getObject_ok hg).2.1
        simp [destroyView, hg, hu]

/-- C2 witness: the amended statement on the sample store — user 2's
requests against user 1's contact answer 404. -/
theorem c2_witness :
    updateView dbSample 2 1 emptyInput = Except.error ApiError.notFound ∧
    destroyView dbSample 2 1 = Except.error ApiError.notFound :=
  (c2_foreign_update_delete_not_found dbSample 2 1 emptyInput).1 (by decide)

/-! ## C9: updates never move a contact to another owner -/

/-- C9: `ContactoCreateUpdateSerializer` declares no `usuario` field, so
the attribute loop of `update` cannot touch the owner: the saved
instance keeps its owner, and a full or partial aggregate update leaves
the (id, owner) column of the contact table pointwise unchanged. -/
theorem c9_owner_immutable_on_update (db : DB) (inst : Contacto) (vd : ContactoInput) :
    (applyInput inst vd).usuario = inst.usuario ∧
    (nodupIds db.contactos → inst ∈ db.contactos →
      (serializerUpdate db inst vd).contactos.map (fun c => (c.id, c.usuario)) =
        db.contactos.map (fun c => (c.id, c.usuario))) := by
  refine ⟨rfl, fun hnd hm => ?_⟩
  show (db.contactos.map
      (fun x => if x.id == inst.id then applyInput inst vd else x)).map _ = _
  rw [List.map_map]
  apply List.map_congr_left
  intro a ha
  by_cases hid : a.id = inst.id
  · have ha' : a = inst := List.inj_on_of_nodup_map hnd ha hm hid
    subst ha'
    simp [Function.comp, applyInput]
  · simp [Function.comp, hid]

/-- C9 witness: updating Ana with a body that changes her name keeps
her (id, owner) row — and the whole (id, owner) column — unchanged. -/
theorem c9_witness :
    (applyInput ana { emptyInput with nombre := some "Anita" }).usuario = ana.usuario ∧
    (serializerUpdate dbSample ana { emptyInput with nombre := some "Anita" }).contactos.map
        (fun c => (c.id, c.usuario)) =
      dbSample.contactos.map (fun c => (c.id, c.usuario)) :=
  ⟨(c9_owner_immutable_on_update dbSample ana _).1,
   (c9_owner_immutable_on_update dbSample ana _).2 (by decide) (by decide)⟩

/-! ## C8: the favorite toggle -/

/-- The row `Contacto.objects.get(pk=pk, usuario=u)` finds is the
member with that pk (unique by `nodupIds`) when it is owned by `u`. -/
theorem toggle_find {db : DB} {u pk : Nat} {c : Contacto}
    (hnd : nodupIds db.contactos) (hm : c ∈ db.contactos)
    (hid : c.id = pk) (hu : c.usuario = u) :
    db.contactos.find? (fun x => x.id == pk && x.usuario == u) = some c := by
  cases hf : db.contactos.find? (fun x => x.id == pk && x.usuario == u) with
  | none =>
      rw [List.find?_eq_none] at hf
      exact absurd (by simp [hid, hu]) (hf c hm)
  | some y =>
      have hy := List.find?_some hf
      simp only [Bool.and_eq_true, beq_iff_eq] at hy
      have : y = c :=
        List.inj_on_of_nodup_map hnd (List.mem_of_find?_eq_some hf) hm
          (by rw [hy.1, hid])
      rw [this]

/-- C8: toggling an unknown (or foreign-owned) pk answers 404 and leaves
the store untouched; toggling an owned contact flips and persists its
`favorito` flag and returns the flipped contact; toggling twice
restores the store exactly. -/
theorem c8_toggle_favorito (db : DB) (u pk : Nat) :
    ((∀ c ∈ db.contactos, ¬(c.id = pk ∧ c.usuario = u)) →
        toggleFavorito db u pk = (db, none)) ∧
    (∀ c, nodupIds db.contactos → c ∈ db.contactos → c.id = pk → c.usuario = u →
        (toggleFavorito db u pk).2 = some { c with favorito := !c.favorito } ∧
        (toggleFavorito db u pk).1.contactos =
          db.contactos.map
            (fun x => if x.id = pk then { c with favorito := !c.favorito } else x) ∧
        (toggleFavorito db u pk).1.telefonos = db.telefonos) ∧
    (nodupIds db.contactos →
        (toggleFavorito (toggleFavorito db u pk).1 u pk).1 = db) := by
  refine ⟨fun h => ?_, fun c hnd hm hid hu => ?_, fun hnd => ?_⟩
  · have hf : db.contactos.find? (fun x => x.id == pk && x.usuario == u) = none := by
      rw [List.find?_eq_none]
      intro x hx hpx
      simp only [Bool.and_eq_true, beq_iff_eq] at hpx
      exact h x hx hpx
    simp [toggleFavorito, hf]
  · have hf := toggle_find hnd hm hid hu
    refine ⟨by simp [toggleFavorito, hf], ?_, by simp [toggleFavorito, hf]⟩
    show (toggleFavorito db u pk).1.contactos = _
    rw [show (toggleFavorito db u pk).1.contactos =
          db.contactos.map (fun x =>
            if x.id == c.id then { c with favorito := !c.favorito } else x) by
        simp [toggleFavorito, hf]]
    apply List.map_congr_left
    intro a _
    by_cases hc : a.id = pk
    · simp [hc, hid]
    · simp [hc, hid]
  · obtain ⟨cs, ts, es, ds, tr⟩ := db
    cases hf : cs.find? (fun x => x.id == pk && x.usuario == u) with
    | none => simp [toggleFavorito, hf]
    | some c0 =>
        have hm0 := List.mem_of_find?_eq_some hf
        have hp0 := List.find?_some hf
        simp only [Bool.and_eq_true, beq_iff_eq] at hp0
        have hnd' : (cs.map (fun c => c.id)).Nodup := hnd
        simp only [toggleFavorito, hf]
        set c1 : Contacto := { c0 with favorito := !c0.favorito } with hc1
        have hfind2 :
            (cs.map (fun x => if x.id == c0.id then c1 else x)).find?
              (fun x => x.id == pk && x.usuario == u) = some c1 := by
          rw [List.find?_map]
          have hcong :
              cs.find? ((fun x => x.id == pk && x.usuario == u) ∘
                  (fun x => if x.id == c0.id then c1 else x)) =
              cs.find? (fun x => x.id == pk && x.usuario == u) := by
            apply find?_congr_pred
            intro a ha
            by_cases hc : a.id = c0.id
            · have : a = c0 := List.inj_on_of_nodup_map hnd' ha hm0 hc
              subst this
              simp [Function.comp, hc1]
            · simp [Function.comp, hc]
          rw [hcong, hf]
          simp
        simp only [hfind2]
        have hmapmap :
            ((cs.map (fun x => if x.id == c0.id then c1 else x)).map
              (fun x => if x.id == c1.id then { c1 with favorito := !c1.favorito } else x)) = cs := by
          rw [List.map_map]
          have : ∀ a ∈ cs,
              ((fun x => if x.id == c1.id then { c1 with favorito := !c1.favorito } else x) ∘
                (fun x => if x.id == c0.id then c1 else x)) a = a := by
            intro a ha
            by_cases hc : a.id = c0.id
            · have haeq : a = c0 := List.inj_on_of_nodup_map hnd' ha hm0 hc
              subst haeq
              simp [Function.comp, hc1, Bool.not_not]
            · simp [Function.comp, hc1, hc]
          rw [List.map_congr_left this]
          simp
        simp only [hmapmap]

/-- C8 witness: on the sample store, toggling Ana flips her flag and
toggling twice restores the store; toggling Beto's pk as user 1 answers
404 with the store unchanged. -/
theorem c8_witness :
    toggleFavorito dbSample 1 2 = (dbSample, none) ∧
    (toggleFavorito dbSample 1 1).2 = some { ana with favorito := !ana.favorito } ∧
    (toggleFavorito (toggleFavorito dbSample 1 1).1 1 1).1 = dbSample :=
  ⟨(c8_toggle_favorito dbSample 1 2).1 (by decide),
   ((c8_toggle_favorito dbSample 1 1).2.1 ana (by decide) (by decide) rfl rfl).1,
   (c8_toggle_favorito dbSample 1 1).2.2 (by decide)⟩

/-! ## Lemmas on the `q`-filter machinery -/

/-- `.distinct()` only drops rows. -/
theorem mem_dedupByIdAux_sub {seen : List Nat} {l : List Contacto} {x : Contacto}
    (h : x ∈ dedupByIdAux seen l) : x ∈ l := by
  induction l generalizing seen with
  | nil => simp [dedupByIdAux] at h
  | cons c cs ih =>
      simp only [dedupByIdAux] at h
      split at h
      · exact List.mem_cons_of_mem _ (ih h)
      · rcases List.mem_cons.mp h with rfl | h'
        · exact List.mem_cons_self _ _
        · exact List.mem_cons_of_mem _ (ih h')

/-- `.distinct()` leaves no two rows with the same contact id, and none
whose id was already seen. -/
theorem dedup_ids (seen : List Nat) (l : List Contacto) :
    ((dedupByIdAux seen l).map (fun c => c.id)).Nodup ∧
    ∀ x ∈ dedupByIdAux seen l, seen.contains x.id = false := by
  induction l generalizing seen with
  | nil => simp [dedupByIdAux]
  | cons c cs ih =>
      simp only [dedupByIdAux]
      split
      · exact ih seen
      · rename_i hcont
        have hcf : seen.contains c.id = false := by simpa using hcont
        obtain ⟨ihn, ihs⟩ := ih (c.id :: seen)
        refine ⟨?_, ?_⟩
        · rw [List.map_cons, List.nodup_cons]
          refine ⟨?_, ihn⟩
          intro hmem
          obtain ⟨x, hx, hxid⟩ := List.mem_map.mp hmem
          have hxs := ihs x hx
          rw [List.contains_cons] at hxs
          simp only [Bool.or_eq_false_iff] at hxs
          exact absurd hxs.1 (by simp [hxid])
        · intro x hx
          rcases List.mem_cons.mp hx with rfl | hx'
          · exact hcf
          · have hxs := ihs x hx'
            rw [List.contains_cons] at hxs
            simp only [Bool.or_eq_false_iff] at hxs
            exact hxs.2

/-- Membership in `.distinct()`, assuming ids identify rows. -/
theorem mem_dedupByIdAux_iff (seen : List Nat) (l : List Contacto) (x : Contacto)
    (hinj : ∀ a ∈ l, ∀ b ∈ l, a.id = b.id → a = b) :
    x ∈ dedupByIdAux seen l ↔ (x ∈ l ∧ seen.contains x.id = false) := by
  induction l generalizing seen with
  | nil => simp [dedupByIdAux]
  | cons c cs ih =>
      have hinj' : ∀ a ∈ cs, ∀ b ∈ cs, a.id = b.id → a = b :=
        fun a ha b hb => hinj a (List.mem_cons_of_mem _ ha) b (List.mem_cons_of_mem _ hb)
      simp only [dedupByIdAux]
      split
      · rename_i hcont
        rw [ih seen hinj']
        simp only [List.mem_cons]
        constructor
        · rintro ⟨hx, hs⟩
          exact ⟨Or.inr hx, hs⟩
        · rintro ⟨rfl | hx', hs⟩
          · rw [hcont] at hs
            cases hs
          · exact ⟨hx', hs⟩
      · rename_i hcont
        have hcf : seen.contains c.id = false := by simpa using hcont
        simp only [List.mem_cons]
        rw [ih (c.id :: seen) hinj']
        constructor
        · rintro (rfl | ⟨hx, hs⟩)
          · exact ⟨Or.inl rfl, hcf⟩
          · rw [List.contains_cons] at hs
            simp only [Bool.or_eq_false_iff] at hs
            exact ⟨Or.inr hx, hs.2⟩
        · rintro ⟨rfl | hx, hs⟩
          · exact Or.inl rfl
          · by_cases hid : x.id = c.id
            · exact Or.inl (hinj x (List.mem_cons_of_mem _ hx) c
                (List.mem_cons_self _ _) hid)
            · right
              refine ⟨hx, ?_⟩
              rw [List.contains_cons]
              simp only [Bool.or_eq_false_iff]
              exact ⟨by simp [hid], hs⟩

/-- Some row of the left join satisfies the `WHERE` disjunction exactly
when the contact matches the term on a scalar field, a phone, or an
email. -/
theorem exists_joinRow_iff (db : DB) (s : String) (c : Contacto) :
    (∃ p ∈ leftJoinRows db c, rowMatchesQ s c p = true) ↔
      matchesQ db s c = true := by
  have hmem : ∀ p : Option Telefono × Option Email,
      p ∈ leftJoinRows db c ↔
      (p.1 ∈ (if (telefonosDe db c.id).isEmpty then [none]
              else (telefonosDe db c.id).map some) ∧
       p.2 ∈ (if (emailsDe db c.id).isEmpty then [none]
              else (emailsDe db c.id).map some)) := by
    intro p
    show p ∈ List.flatMap _ _ ↔ _
    rw [List.mem_flatMap]
    constructor
    · rintro ⟨t, ht, hp⟩
      obtain ⟨e, he, rfl⟩ := List.mem_map.mp hp
      exact ⟨ht, he⟩
    · rintro ⟨h1, h2⟩
      refine ⟨p.1, h1, ?_⟩
      exact List.mem_map_of_mem _ h2
  constructor
  · rintro ⟨p, hp, hm⟩
    rw [hmem p] at hp
    obtain ⟨h1, h2⟩ := hp
    rw [rowMatchesQ] at hm
    rw [matchesQ]
    simp only [Bool.or_eq_true] at hm ⊢
    rcases hm with (hsc | ht) | he
    · exact Or.inl (Or.inl hsc)
    · -- a phone branch matched, so p.1 = some t with t a real phone row
      cases hp1 : p.1 with
      | none => rw [hp1] at ht; cases ht
      | some t =>
          rw [hp1] at ht h1
          have htm : t ∈ telefonosDe db c.id := by
            by_cases hie : (telefonosDe db c.id).isEmpty
            · rw [if_pos hie] at h1
              simp at h1
            · rw [if_neg hie] at h1
              obtain ⟨t', ht', heq⟩ := List.mem_map.mp h1
              cases heq
              exact ht'
          refine Or.inl (Or.inr ?_)
          rw [List.any_eq_true]
          exact ⟨t, htm, ht⟩
    · cases hp2 : p.2 with
      | none => rw [hp2] at he; cases he
      | some e =>
          rw [hp2] at he h2
          have hem : e ∈ emailsDe db c.id := by
            by_cases hie : (emailsDe db c.id).isEmpty
            · rw [if_pos hie] at h2
              simp at h2
            · rw [if_neg hie] at h2
              obtain ⟨e', he', heq⟩ := List.mem_map.mp h2
              cases heq
              exact he'
          refine Or.inr ?_
          rw [List.any_eq_true]
          exact ⟨e, hem, he⟩
  · intro hm
    have hts : ∃ t, t ∈ (if (telefonosDe db c.id).isEmpty then [none]
        else (telefonosDe db c.id).map some) := by
      by_cases hie : (telefonosDe db c.id).isEmpty
      · exact ⟨none, by rw [if_pos hie]; simp⟩
      · obtain ⟨t, ht⟩ :=
          List.exists_mem_of_ne_nil _ (List.isEmpty_eq_false.mp (by simpa using hie))
        exact ⟨some t, by rw [if_neg hie]; exact List.mem_map_of_mem _ ht⟩
    have hes : ∃ e, e ∈ (if (emailsDe db c.id).isEmpty then [none]
        else (emailsDe db c.id).map some) := by
      by_cases hie : (emailsDe db c.id).isEmpty
      · exact ⟨none, by rw [if_pos hie]; simp⟩
      · obtain ⟨e, he⟩ :=
          List.exists_mem_of_ne_nil _ (List.isEmpty_eq_false.mp (by simpa using hie))
        exact ⟨some e, by rw [if_neg hie]; exact List.mem_map_of_mem _ he⟩
    rw [matchesQ] at hm
    simp only [Bool.or_eq_true] at hm
    rcases hm with (hsc | ht) | he
    · obtain ⟨t, ht'⟩ := hts
      obtain ⟨e, he'⟩ := hes
      refine ⟨(t, e), (hmem (t, e)).mpr ⟨ht', he'⟩, ?_⟩
      rw [rowMatchesQ]
      simp [hsc]
    · rw [List.any_eq_true] at ht
      obtain ⟨t, htm, htic⟩ := ht
      have hie : (telefonosDe db c.id).isEmpty = false :=
        List.isEmpty_eq_false.mpr (List.ne_nil_of_mem htm)
      obtain ⟨e, he'⟩ := hes
      refine ⟨(some t, e), (hmem (some t, e)).mpr
        ⟨by rw [hie]; exact List.mem_map_of_mem _ htm, he'⟩, ?_⟩
      rw [rowMatchesQ]
      simp [htic]
    · rw [List.any_eq_true] at he
      obtain ⟨e, hem, heic⟩ := he
      have hie : (emailsDe db c.id).isEmpty = false :=
        List.isEmpty_eq_false.mpr (List.ne_nil_of_mem hem)
      obtain ⟨t, ht'⟩ := hts
      refine ⟨(t, some e), (hmem (t, some e)).mpr
        ⟨ht', by rw [hie]; exact List.mem_map_of_mem _ hem⟩, ?_⟩
      rw [rowMatchesQ]
      simp [heic]

/-- Membership in the joined, filtered (pre-`distinct`) rows. -/
theorem mem_qRows_iff {db : DB} {s : String} {qs : List Contacto} {x : Contacto} :
    x ∈ qRows db s qs ↔ (x ∈ qs ∧ matchesQ db s x = true) := by
  rw [qRows, List.mem_flatMap]
  constructor
  · rintro ⟨c, hc, hx⟩
    rw [List.mem_filterMap] at hx
    obtain ⟨p, hp, heq⟩ := hx
    by_cases hr : rowMatchesQ s c p = true
    · rw [if_pos hr] at heq
      cases heq
      exact ⟨hc, (exists_joinRow_iff db s x).mp ⟨p, hp, hr⟩⟩
    · rw [if_neg hr] at heq
      cases heq
  · rintro ⟨hx, hm⟩
    obtain ⟨p, hp, hr⟩ := (exists_joinRow_iff db s x).mpr hm
    refine ⟨x, hx, ?_⟩
    rw [List.mem_filterMap]
    exact ⟨p, hp, by rw [if_pos hr]⟩

/-! ## C3: every read operation is scoped to the requester -/

/-- Each filter step of `buscar` only narrows the queryset. -/
theorem mem_buscar_sub {db : DB} {u : Nat}
    {q tipo favorito empresa activo : Option String} {x : Contacto}
    (h : x ∈ buscar db u q tipo favorito empresa activo) :
    x ∈ ownContactos db u := by
  rw [buscar] at h
  have h1 : x ∈ applyEmpresa empresa (applyFavorito favorito
      (applyTipo tipo (applyQ db q (ownContactos db u)))) := by
    rcases activo with _ | s
    · exact h
    · exact (List.mem_filter.mp h).1
  have h2 : x ∈ applyFavorito favorito
      (applyTipo tipo (applyQ db q (ownContactos db u))) := by
    rcases empresa with _ | s
    · exact h1
    · rw [applyEmpresa] at h1
      split at h1
      · exact h1
      · exact (List.mem_filter.mp h1).1
  have h3 : x ∈ applyTipo tipo (applyQ db q (ownContactos db u)) := by
    rcases favorito with _ | s
    · exact h2
    · exact (List.mem_filter.mp h2).1
  have h4 : x ∈ applyQ db q (ownContactos db u) := by
    rcases tipo with _ | s
    · exact h3
    · rw [applyTipo] at h3
      split at h3
      · exact h3
      · exact (List.mem_filter.mp h3).1
  rcases q with _ | s
  · exact h4
  · rw [applyQ] at h4
    split at h4
    · exact h4
    · exact (mem_qRows_iff.mp (mem_dedupByIdAux_sub h4)).1

/-- C3: the list, search, grouping, statistics and detail-retrieve
operations return only the requester's contacts, and their results are
unchanged when every other user's contacts are removed from the store —
they are functions of the requester's own contacts alone. -/
theorem c3_reads_scoped_to_owner (db : DB) (u : Nat)
    (q tipo favorito empresa activo : Option String) (pk : Nat) :
    (ownContactos db u).all (fun c => c.usuario == u) = true ∧
    (buscar db u q tipo favorito empresa activo).all
      (fun c => c.usuario == u) = true ∧
    ownContactos (restrictToUser db u) u = ownContactos db u ∧
    buscar (restrictToUser db u) u q tipo favorito empresa activo =
      buscar db u q tipo favorito empresa activo ∧
    estadisticasGet (restrictToUser db u) u = estadisticasGet db u ∧
    porTipoGet (restrictToUser db u) u = porTipoGet db u ∧
    getObject (restrictToUser db u) u pk = getObject db u pk ∧
    (getObject db u pk).toOption.all (fun c => c.usuario == u) = true := by
  have hown : (ownContactos db u).all (fun c => c.usuario == u) = true := by
    rw [List.all_eq_true]
    intro x hx
    simp [mem_ownContactos.mp hx]
  have habs : ∀ p : Contacto → Bool,
      (∀ a, p a = true → (a.usuario == u) = true) →
      (ownContactos db u).filter p = db.contactos.filter p :=
    fun p hp => filter_absorb _ p db.contactos hp
  refine ⟨hown, ?_, ownContactos_restrict db u, ?_, ?_, ?_, ?_, ?_⟩
  · rw [List.all_eq_true]
    intro x hx
    exact List.all_eq_true.mp hown x (mem_buscar_sub hx)
  · show buscar (restrictToUser db u) u q tipo favorito empresa activo = _
    rw [buscar, buscar, ownContactos_restrict]
    exact rfl
  · show estadisticasGet (restrictToUser db u) u = _
    rw [estadisticasGet, estadisticasGet, ownContactos_restrict]
    exact rfl
  · show porTipoGet (restrictToUser db u) u = _
    rw [porTipoGet, porTipoGet]
    apply List.map_congr_left
    intro tipo _
    rw [show (restrictToUser db u).contactos = ownContactos db u from rfl]
    rw [habs _ (fun a ha => by
      simp only [Bool.and_eq_true] at ha
      exact ha.1)]
  · show getObject (restrictToUser db u) u pk = _
    rw [getObject, getObject, ownContactos_restrict]
  · rw [getObject]
    cases hf : (ownContactos db u).find? (fun c => c.id == pk) with
    | none => rfl
    | some c =>
        have hm := mem_ownContactos.mp (List.mem_of_find?_eq_some hf)
        simp [Except.toOption, hm.2]

/-! ## C5: free-text search returns matches exactly once -/

/-- C5: with a non-empty term and primary-key-unique contacts, the
search result contains each contact of the requester matching the term
on a scalar field, any phone number or any email address — and no
other contact — with no duplicates even when several children of one
contact match. -/
theorem c5_search_term_exact_once (db : DB) (u : Nat) (q : String)
    (hq : q ≠ "") (hnd : nodupIds db.contactos) :
    (buscar db u (some q) none none none none).Nodup ∧
    ∀ c, c ∈ buscar db u (some q) none none none none ↔
      (c ∈ db.contactos ∧ c.usuario = u ∧ matchesQ db q c = true) := by
  have hqe : q.isEmpty = false := by
    cases h : q.isEmpty with
    | false => rfl
    | true => exact absurd ((String.isEmpty_iff q).mp h) hq
  have hb : buscar db u (some q) none none none none =
      dedupById (qRows db q (ownContactos db u)) := by
    rw [buscar, applyTipo, applyFavorito, applyEmpresa, applyActivo, applyQ, hqe]
    rfl
  have hinj : ∀ a ∈ qRows db q (ownContactos db u),
      ∀ b ∈ qRows db q (ownContactos db u), a.id = b.id → a = b := by
    intro a ha b hb' hid
    have ha' := (mem_ownContactos.mp (mem_qRows_iff.mp ha).1).1
    have hb'' := (mem_ownContactos.mp (mem_qRows_iff.mp hb').1).1
    exact List.inj_on_of_nodup_map hnd ha' hb'' hid
  constructor
  · rw [hb]
    exact List.Nodup.of_map _ (dedup_ids [] _).1
  · intro c
    rw [hb, dedupById, mem_dedupByIdAux_iff [] _ c hinj, mem_qRows_iff]
    constructor
    · rintro ⟨⟨hc, hm⟩, _⟩
      obtain ⟨hcd, hcu⟩ := mem_ownContactos.mp hc
      exact ⟨hcd, hcu, hm⟩
    · rintro ⟨hcd, hcu, hm⟩
      exact ⟨⟨mem_ownContactos.mpr ⟨hcd, hcu⟩, hm⟩, rfl⟩

/-- C5 witness: searching "555" as user 1 on the sample store, where
both of Ana's phones contain "555", returns a duplicate-free list, and
Ana is in it exactly by the matching rule. -/
theorem c5_witness :
    (buscar dbSample 1 (some "555") none none none none).Nodup ∧
    (ana ∈ buscar dbSample 1 (some "555") none none none none ↔
      (ana ∈ dbSample.contactos ∧ ana.usuario = 1 ∧
        matchesQ dbSample "555" ana = true)) :=
  ⟨(c5_search_term_exact_once dbSample 1 "555" (by decide) (by decide)).1,
   (c5_search_term_exact_once dbSample 1 "555" (by decide) (by decide)).2 ana⟩

/-! ## C6: grouping by relationship type enumerates the active catalog -/

/-- C6: the group-by-type response has an entry for every active
relationship type — also with zero matching contacts, whose entry then
carries count 0 and an empty list — and every entry stems from an
active catalog type, so inactive types never appear. -/
theorem c6_por_tipo_active_catalog (db : DB) (u : Nat) :
    (∀ tipo ∈ db.tipos_relacion, tipo.activo = true →
        ∃ e ∈ porTipoGet db u,
          e.tipo_id = tipo.id ∧ e.nombre = tipo.nombre ∧
          e.contactos = db.contactos.filter
            (fun c => c.usuario == u && c.tipo_relacion == tipo.id) ∧
          e.count = (db.contactos.filter
            (fun c => c.usuario == u && c.tipo_relacion == tipo.id)).length) ∧
    (∀ e ∈ porTipoGet db u, ∃ tipo ∈ db.tipos_relacion,
        tipo.activo = true ∧ e.tipo_id = tipo.id ∧
        e.count = e.contactos.length) := by
  constructor
  · intro tipo hm ha
    refine ⟨_, List.mem_map_of_mem _ (List.mem_filter.mpr ⟨hm, ha⟩),
      rfl, rfl, rfl, rfl⟩
  · intro e he
    rw [porTipoGet] at he
    obtain ⟨tipo, htm, heq⟩ := List.mem_map.mp he
    have hf := List.mem_filter.mp htm
    exact ⟨tipo, hf.1, hf.2, by rw [← heq], by rw [← heq]⟩

/-- C6 witness: the active type `Escuela` has no contacts of user 1 yet
appears in the grouping with an empty list. -/
theorem c6_witness :
    ∃ e ∈ porTipoGet dbSample 1,
      e.tipo_id = tipoEscuela.id ∧ e.nombre = tipoEscuela.nombre ∧
      e.contactos = dbSample.contactos.filter
        (fun c => c.usuario == 1 && c.tipo_relacion == tipoEscuela.id) ∧
      e.count = (dbSample.contactos.filter
        (fun c => c.usuario == 1 && c.tipo_relacion == tipoEscuela.id)).length :=
  (c6_por_tipo_active_catalog dbSample 1).1 tipoEscuela (by decide) rfl

/-! ## C7: the statistics breakdown covers all types but only positive
counts -/

/-- C7: a relationship type — active or not — contributes its
`(name, count, color)` entry to the statistics breakdown exactly when
the requester owns at least one contact of that type. -/
theorem c7_estadisticas_breakdown (db : DB) (u : Nat) (tipo : TipoRelacion)
    (hm : tipo ∈ db.tipos_relacion)
    (hn : (db.tipos_relacion.map (fun t => t.nombre)).Nodup) :
    (tipo.nombre,
        ((ownContactos db u).filter (fun c => c.tipo_relacion == tipo.id)).length,
        tipo.color) ∈ (estadisticasGet db u).por_tipo_relacion ↔
      0 < ((ownContactos db u).filter (fun c => c.tipo_relacion == tipo.id)).length := by
  constructor
  · intro h
    rw [show (estadisticasGet db u).por_tipo_relacion =
        db.tipos_relacion.filterMap (fun t =>
          let count := ((ownContactos db u).filter
            (fun c => c.tipo_relacion == t.id)).length
          if count > 0 then some (t.nombre, count, t.color) else none)
      from rfl, List.mem_filterMap] at h
    obtain ⟨tipo', hm', heq⟩ := h
    by_cases hpos : 0 < ((ownContactos db u).filter
        (fun c => c.tipo_relacion == tipo'.id)).length
    · rw [if_pos hpos] at heq
      have hnom : tipo'.nombre = tipo.nombre := congrArg Prod.fst (Option.some.inj heq)
      have : tipo' = tipo := List.inj_on_of_nodup_map hn hm' hm hnom
      subst this
      exact hpos
    · rw [if_neg hpos] at heq
      cases heq
  · intro h
    rw [show (estadisticasGet db u).por_tipo_relacion =
        db.tipos_relacion.filterMap (fun t =>
          let count := ((ownContactos db u).filter
            (fun c => c.tipo_relacion == t.id)).length
          if count > 0 then some (t.nombre, count, t.color) else none)
      from rfl, List.mem_filterMap]
    exact ⟨tipo, hm, by rw [if_pos h]⟩

/-- C7 witness: the inactive type `Trabajo` (Beto's) appears in user
2's statistics breakdown — the breakdown is computed over all catalog
rows, not just active ones. -/
theorem c7_witness :
    tipoTrabajo.activo = false ∧
    ((tipoTrabajo.nombre,
        ((ownContactos dbSample 2).filter
          (fun c => c.tipo_relacion == tipoTrabajo.id)).length,
        tipoTrabajo.color) ∈ (estadisticasGet dbSample 2).por_tipo_relacion ↔
      0 < ((ownContactos dbSample 2).filter
        (fun c => c.tipo_relacion == tipoTrabajo.id)).length) :=
  ⟨rfl, c7_estadisticas_breakdown dbSample 2 tipoTrabajo (by decide) (by decide)⟩

/-! ## C10: boolean query parameters of the search endpoint -/

/-- C10: a present `favorito`/`activo` parameter is never rejected: any
value whose lowercasing is not exactly `"true"` filters for the `false`
value of the flag, a case-insensitive `"true"` filters for `true`, and
only an absent parameter leaves the queryset unfiltered. -/
theorem c10_favorito_activo_coercion (db : DB) (u : Nat) (s : String) :
    (toLowerStr s ≠ "true" →
        buscar db u none none (some s) none none =
          (ownContactos db u).filter (fun c => c.favorito == false) ∧
        buscar db u none none none none (some s) =
          (ownContactos db u).filter (fun c => c.activo == false)) ∧
    (toLowerStr s = "true" →
        buscar db u none none (some s) none none =
          (ownContactos db u).filter (fun c => c.favorito == true) ∧
        buscar db u none none none none (some s) =
          (ownContactos db u).filter (fun c => c.activo == true)) ∧
    buscar db u none none none none none = ownContactos db u := by
  refine ⟨fun h => ?_, fun h => ?_, rfl⟩
  · have hb : (toLowerStr s == "true") = false := by
      simp [h]
    constructor
    · rw [buscar, applyQ, applyTipo, applyFavorito, applyEmpresa, applyActivo, hb]
    · rw [buscar, applyQ, applyTipo, applyFavorito, applyEmpresa, applyActivo, hb]
  · have hb : (toLowerStr s == "true") = true := by
      simp [h]
    constructor
    · rw [buscar, applyQ, applyTipo, applyFavorito, applyEmpresa, applyActivo, hb]
    · rw [buscar, applyQ, applyTipo, applyFavorito, applyEmpresa, applyActivo, hb]

/-- C10 witness: `favorito="TRUE "` (trailing blank) filters user 2's
contacts for non-favorites, `favorito="True"` for favorites. -/
theorem c10_witness :
    buscar dbSample 2 none none (some "TRUE ") none none =
      (ownContactos dbSample 2).filter (fun c => c.favorito == false) ∧
    buscar dbSample 2 none none (some "True") none none =
      (ownContactos dbSample 2).filter (fun c => c.favorito == true) :=
  ⟨((c10_favorito_activo_coercion dbSample 2 "TRUE ").1 (by decide)).1,
   ((c10_favorito_activo_coercion dbSample 2 "True").2.1 (by decide)).1⟩

end Contactos
